import Mathlib

/-
Verification development for the unb-api-py client library
(files unbapi/application.py, unbapi/guild.py, unbapi/user.py,
unbapi/items.py, unbapi/exceptions.py).

The Python source is shallowly embedded: every definition below is a
direct transcription of the corresponding Python function or code block,
with machine-level JSON values modelled as an inductive type, HTTP
responses as records carrying the status code and the relevant body
fields, raised exceptions as Except/Option error values, and the lazy
generator loops of the paginated listing operations as a fuel-indexed
recursive function that also records the trace of page requests issued.
-/

/-- JSON values as far as the library inspects them: numbers and strings.
The balance fields (cash, bank, total) and the quantity field of the
wire bodies are always one of these two shapes. -/
inductive JVal
| jnum (n : Int)
| jstr (s : String)
deriving DecidableEq

/-- The exception classes of unbapi/exceptions.py that carry a message:
InvalidToken, Forbidden, NotFound and the base class unbapiException,
raised for 401, 403, 404 and other non-success statuses respectively. -/
inductive ApiError
| invalidToken (msg : String)
| forbidden (msg : String)
| notFound (msg : String)
| unbapiException (msg : String)
deriving DecidableEq

/-- The ok property of a requests Response: True unless the status code
is in the client-error or server-error range 400..599. -/
def respOk (c : Nat) : Bool :=
  decide (c < 400) || decide (600 ≤ c)

/-- Transcription of response.json().get("message", default): the body
message field when present, otherwise the given default string. -/
def getMsg (m : Option String) (d : String) : String :=
  m.getD d

/-- The four status-check lines that appear verbatim in every request
path of the library except Application.fetch_guild, namely in
PartialGuild.fetch_permissions, PartialGuild.fetch_user,
PartialGuild.fetch_leaderboard, PartialGuild.fetch_items,
PartialGuild.fetch_item, PartialUser.update_balance,
PartialUser.set_balance, PartialUser.fetch_inventory,
PartialUser.fetch_item_quantity (after its special case),
PartialUser.add_item, PartialUser.remove_item and Item.delete:
401 raises InvalidToken, 403 raises Forbidden, 404 raises NotFound,
and any other non-ok status raises unbapiException. Returns the raised
exception, or none when the response passes through. Note the source
spells the 404 fallback message "Unkown Guild". -/
def mapStatus (c : Nat) (m : Option String) : Option ApiError :=
  if c = 401 then some (.invalidToken (getMsg m "Token is not valid"))
  else if c = 403 then some (.forbidden (getMsg m "This App is not allowed to access this resource"))
  else if c = 404 then some (.notFound (getMsg m "Unkown Guild"))
  else if respOk c then none
  else some (.unbapiException (getMsg m "HTTP request failed."))

/-- The status checks of Application.fetch_guild (application.py lines
55-62), which handle only 401 and 404: there is no 403 check and no
generic non-success check in that function. -/
def fetch_guild_map (c : Nat) (m : Option String) : Option ApiError :=
  if c = 401 then some (.invalidToken (getMsg m "Token is not valid"))
  else if c = 404 then some (.notFound (getMsg m "Unkown Guild"))
  else none

/-- Python runtime values that can be passed as a guild, user or item
identifier argument: an int, a str, or any other object, the latter
modelled by whether it exposes an id attribute and what that attribute
holds (objNoId is an object without an id attribute, objWithId v an
object whose id attribute holds v). -/
inductive PyVal
| pint (n : Int)
| pstr (s : String)
| objNoId
| objWithId (id_attr : PyVal)
deriving DecidableEq

/-- The two exceptions the identifier-normalization snippet can raise:
ValueError from int() on a non-numeric string (carrying the offending
literal), and the TypeError raised when the object has no id attribute
(carrying the argument name used in the message). -/
inductive NormError
| valueError (literal : String)
| typeError (arg_name : String)
deriving DecidableEq

/-- Decimal-digit run parser used to model the Python builtin int():
consumes all characters, failing on any non-digit. -/
def parseDigitsAux : List Char → Nat → Option Nat
  | [], acc => some acc
  | c :: cs, acc =>
    if c.isDigit then parseDigitsAux cs (10 * acc + (c.toNat - 48)) else none

/-- Model of the Python builtin int(s) for str arguments: an optional
sign followed by at least one decimal digit (whitespace stripping and
underscore digit grouping are not exercised by any claim and are left
out). Returns none where Python raises ValueError. -/
def parsePyInt (s : String) : Option Int :=
  match s.toList with
  | [] => none
  | '-' :: rest =>
    if rest = [] then none else (parseDigitsAux rest 0).map (fun n => -(n : Int))
  | '+' :: rest =>
    if rest = [] then none else (parseDigitsAux rest 0).map (fun n => (n : Int))
  | cs => (parseDigitsAux cs 0).map (fun n => (n : Int))

/-- The identifier-normalization snippet that is repeated verbatim (up
to the argument name in the TypeError message) at the head of
Application.get_guild, Application.fetch_guild, PartialGuild.get_user,
PartialGuild.fetch_user, PartialGuild.fetch_item,
PartialUser.fetch_item_quantity, PartialUser.add_item and
PartialUser.remove_item:

  if type(x) == str: x = int(x)
  elif not type(x) == int:
    try: x = x.id
    except AttributeError: raise TypeError(...)

An int is left unchanged, a str is parsed by int(), and any other value
is replaced by its id attribute taken verbatim (no further conversion),
or TypeError when the attribute is absent. -/
def normalizeWith (arg_name : String) : PyVal → Except NormError PyVal
  | .pint n => .ok (.pint n)
  | .pstr s =>
    match parsePyInt s with
    | some n => .ok (.pint n)
    | none => .error (.valueError s)
  | .objNoId => .error (.typeError arg_name)
  | .objWithId v => .ok v

/-- The while-loop guard of the three listing generators (guild.py
fetch_leaderboard and fetch_items, user.py fetch_inventory):
while limit == None or yields < limit. -/
def limitActive (limit : Option Int) (yields : Int) : Bool :=
  match limit with
  | none => true
  | some l => decide (yields < l)

/-- The in-page break test of the listing generators:
if limit != None and yields >= limit: break. -/
def limitReached (limit : Option Int) (yields : Int) : Bool :=
  match limit with
  | none => false
  | some l => decide (l ≤ yields)

/-- The limit query parameter sent with each page request:
limit - yields if limit and limit - yields < 1000 else 1000
(note the Python truthiness test on limit: None and 0 both select
1000). -/
def pageLimitParam (limit : Option Int) (yields : Int) : Int :=
  match limit with
  | none => 1000
  | some l => if l ≠ 0 ∧ l - yields < 1000 then l - yields else 1000

/-- One page response of a listing endpoint: the HTTP status, the
optional body message (for error mapping), the element array of the
body (the users array of fetch_leaderboard, respectively the items
array of fetch_items and fetch_inventory), and the body total_pages
field. -/
structure PageResp (α : Type) where
  status_code : Nat := 200
  message : Option String := none
  elems : List α := []
  total_pages : Int := 0

/-- The body of the per-page for-loop: yield each element in order,
incrementing yields, and break out of the page as soon as
limit != None and yields >= limit, leaving the remaining elements of
the page unprocessed. Returns the yielded elements and the new yields
counter. -/
def takeLimited (limit : Option Int) : Int → List α → List α × Int
  | yields, [] => ([], yields)
  | yields, e :: rest =>
    if limitReached limit (yields + 1) then ([e], yields + 1)
    else
      let p := takeLimited limit (yields + 1) rest
      (e :: p.1, p.2)

/-- Observable outcome of running a listing generator to exhaustion:
the elements yielded in order, the trace of page requests issued as
(limit parameter, page parameter) pairs, the exception that ended the
iteration if any, and whether the modelling fuel ran out before the
loop ended. -/
structure Trace (α : Type) where
  yielded : List α := []
  requests : List (Int × Int) := []
  error : Option ApiError := none
  outOfFuel : Bool := false

/-- The shared generator loop of PartialGuild.fetch_leaderboard
(guild.py lines 113-136), PartialGuild.fetch_items and
PartialUser.fetch_inventory, over an abstract server mapping the limit
and page query parameters to a page response:

  page = 1; yields = 0
  while limit == None or yields < limit:
    response = GET(limit=pageLimitParam, sort=sort, page=page)
    <the four mapStatus checks>
    for element in data array: yield it; yields += 1;
      if limit != None and yields >= limit: break
    page += 1
    if page > data["total_pages"]: break

The recursion is indexed by fuel since the Python loop need not
terminate against an arbitrary server; the guard is evaluated before
fuel is consumed, so a run that ends by the guard or the breaks never
reports outOfFuel. -/
def paginate (server : Int → Int → PageResp α) (limit : Option Int) :
    Nat → Int → Int → Trace α
  | 0, _page, yields =>
    if limitActive limit yields then { outOfFuel := true } else {}
  | fuel + 1, page, yields =>
    if limitActive limit yields then
      let sz := pageLimitParam limit yields
      let r := server sz page
      match mapStatus r.status_code r.message with
      | some e => { requests := [(sz, page)], error := some e }
      | none =>
        let p := takeLimited limit yields r.elems
        if page + 1 > r.total_pages then
          { yielded := p.1, requests := [(sz, page)] }
        else
          let t := paginate server limit fuel (page + 1) p.2
          { yielded := p.1 ++ t.yielded,
            requests := (sz, page) :: t.requests,
            error := t.error,
            outOfFuel := t.outOfFuel }
    else {}

/-- An honest test server holding n items (numbered 0, 1, ...): a
request with limit parameter sz and page parameter p is answered with
status 200, the p-th slice of sz items, and total_pages equal to the
number of sz-sized pages needed for all n items. -/
def demoServer (n : Nat) (sz page : Int) : PageResp Nat :=
  { status_code := 200,
    message := none,
    elems := ((List.range n).drop ((page - 1) * sz).toNat).take sz.toNat,
    total_pages := ((n : Int) + sz - 1) / sz }

/-- The Application object (application.py): it holds the token and the
application id decoded from the token (the base64url token decoding
itself is outside the scope of the claims and is modelled as the stored
field). -/
structure AppRec where
  token : String
  app_id : Int
deriving DecidableEq

/-- Python str() of the identifier values, used only to build the
derived leaderboard URL. -/
def pyStr : PyVal → String
  | .pint n => toString n
  | .pstr s => s
  | .objNoId => "<object>"
  | .objWithId _ => "<object>"

/-- The leaderboard_url attribute computed in PartialGuild.__init__
from the id alone. -/
def leaderboardUrl (idv : PyVal) : String :=
  "https://unbelievaboat.com/leaderboard/" ++ pyStr idv

/-- The fields stored by PartialGuild.__init__ (guild.py lines 27-34):
the id, the application back-reference, the derived leaderboard URL and
the private token. No metadata field exists on a partial guild. -/
structure GuildRef where
  id : PyVal
  application : AppRec
  leaderboard_url : String
  token : String
deriving DecidableEq

/-- The fields stored by PartialUser.__init__ (user.py): the id, the
guild back-reference and the private token. No metadata field exists on
a partial user. -/
structure UserRef where
  id : PyVal
  guild : GuildRef
  token : String
deriving DecidableEq

/-- Application.get_guild (application.py lines 24-38): normalize the
identifier argument, then construct a PartialGuild from the normalized
id, the application and its token. The second component is the list of
HTTP requests performed by the call, which is empty: the function body
contains no request. -/
def get_guild (app : AppRec) (v : PyVal) :
    Except NormError GuildRef × List String :=
  (match normalizeWith "guild_id" v with
   | .error e => .error e
   | .ok i =>
     .ok { id := i, application := app, leaderboard_url := leaderboardUrl i,
           token := app.token },
   [])

/-- PartialGuild.get_user (guild.py lines 52-68): normalize the
identifier argument, then construct a PartialUser from the normalized
id, the guild and its token. The second component is the list of HTTP
requests performed by the call, which is empty. -/
def get_user (g : GuildRef) (v : PyVal) :
    Except NormError UserRef × List String :=
  (match normalizeWith "user_id" v with
   | .error e => .error e
   | .ok i => .ok { id := i, guild := g, token := g.token },
   [])

/-- Python runtime values held in a balance position: an int, a str, or
the float math.inf used as the unlimited sentinel. -/
inductive BalVal
| int (n : Int)
| str (s : String)
| inf
deriving DecidableEq

/-- Serialization of one balance argument in PartialUser.update_balance
and PartialUser.set_balance (user.py):
cash if not cash == math.inf else "Infinity".
The sentinel becomes the JSON string "Infinity"; every other value is
JSON-encoded as itself. -/
def serialize_balance : BalVal → JVal
  | .inf => .jstr "Infinity"
  | .int n => .jnum n
  | .str s => .jstr s

/-- The JSON body sent by update_balance and set_balance. -/
structure BalanceBody where
  cash : JVal
  bank : JVal
  reason : Option String
deriving DecidableEq

/-- Body construction in PartialUser.update_balance (user.py lines
36-42, PATCH request). -/
def update_balance_body (cash bank : BalVal) (reason : Option String) :
    BalanceBody :=
  { cash := serialize_balance cash, bank := serialize_balance bank,
    reason := reason }

/-- Body construction in PartialUser.set_balance (user.py, PUT request,
identical serialization). -/
def set_balance_body (cash bank : BalVal) (reason : Option String) :
    BalanceBody :=
  { cash := serialize_balance cash, bank := serialize_balance bank,
    reason := reason }

/-- Parsing of one balance field in User.__init__ (user.py lines
214-218): data[field] if not data[field] == "Infinity" else math.inf.
The wire literal "Infinity" becomes the sentinel; any other JSON value
is kept as the corresponding Python value. -/
def deserialize_balance (v : JVal) : BalVal :=
  if v = .jstr "Infinity" then .inf
  else
    match v with
    | .jnum n => .int n
    | .jstr s => .str s

/-- The response-body fields read by User.__init__: the optional rank
field (an integer when present) and the three balance fields. -/
structure UserData where
  rank : Option Int := none
  cash : JVal
  bank : JVal
  total : JVal

/-- The attributes computed by User.__init__ (user.py lines 211-218). -/
structure UserRec where
  id : Int
  rank : Option Int
  cash : BalVal
  bank : BalVal
  total : BalVal
deriving DecidableEq

/-- User.__init__ (user.py lines 211-218):
rank = int(data["rank"]) if data.get("rank") else None
(a rank of 0 is falsy, so it is treated like an absent field), and the
three balance fields are parsed with the "Infinity" sentinel rule. -/
def User_init (id : Int) (d : UserData) : UserRec :=
  { id := id,
    rank :=
      match d.rank with
      | some n => if n ≠ 0 then some n else none
      | none => none,
    cash := deserialize_balance d.cash,
    bank := deserialize_balance d.bank,
    total := deserialize_balance d.total }

/-- Response shape of the single-item inventory endpoint used by
PartialUser.fetch_item_quantity: the status, the optional body message,
and the optional body quantity field. -/
structure QResp where
  status_code : Nat
  message : Option String := none
  quantity : Option JVal := none
deriving DecidableEq

/-- The exceptions PartialUser.fetch_item_quantity can raise: one of
the mapped API exceptions, the KeyError from a success body lacking a
quantity field, or the ValueError from int() on a non-numeric quantity
value. -/
inductive QFail
| api (e : ApiError)
| keyError
| valueError
deriving DecidableEq

/-- Python int() applied to a JSON value: identity on numbers, decimal
parse on strings. -/
def pyIntJ : JVal → Option Int
  | .jnum n => some n
  | .jstr s => parsePyInt s

/-- PartialUser.fetch_item_quantity response handling (user.py lines
139-148): first the special case
  if status == 404 and json().get("message") == "Unknown item": return 0
then the four shared mapStatus checks, then
  return int(json()["quantity"]). -/
def fetch_item_quantity_handle (r : QResp) : Except QFail Int :=
  if r.status_code = 404 ∧ r.message = some "Unknown item" then .ok 0
  else
    match mapStatus r.status_code r.message with
    | some e => .error (.api e)
    | none =>
      match r.quantity with
      | none => .error .keyError
      | some v =>
        match pyIntJ v with
        | some n => .ok n
        | none => .error .valueError

theorem takeLimited_eq_take {α : Type} (l : Int) :
    ∀ (y : Int) (es : List α), y < l →
      (takeLimited (some l) y es).1 = es.take (l - y).toNat := by
  intro y es
  induction es generalizing y with
  | nil => intro _; simp [takeLimited]
  | cons e rest ih =>
    intro h
    by_cases hl : l ≤ y + 1
    · have h1 : (l - y).toNat = 1 := by omega
      have hr : limitReached (some l) (y + 1) = true := by
        simp [limitReached]; omega
      simp [takeLimited, hr, h1]
    · have hr : limitReached (some l) (y + 1) = false := by
        simp [limitReached]; omega
      have h2 : (l - y).toNat = (l - (y + 1)).toNat + 1 := by omega
      simp [takeLimited, hr, h2, ih (y + 1) (by omega)]

theorem paginate_stop_of_limit {α : Type}
    (server : Int → Int → PageResp α) (l : Int) (fuel : Nat)
    (page y : Int) (h : l ≤ y) :
    paginate server (some l) fuel page y = {} := by
  have hf : limitActive (some l) y = false := by
    simp [limitActive]; omega
  cases fuel with
  | zero => simp [paginate, hf]
  | succ n => simp [paginate, hf]

/-- C4: at every entry point the identifier-normalization snippet
behaves the same way (the argument name only enters the TypeError
message): an int passes through unchanged, a numeric string is parsed
base-10, a non-parseable string fails (with the ValueError of int()),
and an object without an id attribute fails (with the TypeError of the
snippet). -/
theorem claim_C4_normalizer : ∀ (name : String),
    (∀ n : Int, normalizeWith name (.pint n) = .ok (.pint n)) ∧
    normalizeWith name (.pstr "42") = .ok (.pint 42) ∧
    normalizeWith name (.pstr "abc") = .error (.valueError "abc") ∧
    normalizeWith name .objNoId = .error (.typeError name) := by
  intro name
  exact ⟨fun n => rfl, rfl, rfl, rfl⟩

/-- C5 counterexample: the claim says an object whose id attribute is
the numeric string "7" normalizes to the integer 7, the same result as
passing the integer 7 directly; but the snippet takes the id attribute
verbatim, so the object normalizes to the string "7", a different value
from the integer 7. -/
theorem claim_C5_counterexample :
    normalizeWith "item_id" (.objWithId (.pstr "7")) = .ok (.pstr "7") ∧
    normalizeWith "item_id" (.pint 7) = .ok (.pint 7) ∧
    (PyVal.pstr "7") ≠ (PyVal.pint 7) := by
  exact ⟨rfl, rfl, by decide⟩

/-- C5 amended: when a non-integer, non-string identifier argument
exposes an id attribute, the normalizer returns that attribute value
verbatim, with no further normalization of any kind. -/
theorem claim_C5_amended : ∀ (name : String) (v : PyVal),
    normalizeWith name (.objWithId v) = .ok v := by
  intro name v
  rfl

/-- C7: the unlimited-balance sentinel round-trips through the wire
format: update_balance and set_balance serialize a math.inf argument as
the JSON string "Infinity" (and an integer argument as a JSON number);
User construction maps a cash, bank or total field equal to "Infinity"
back to the sentinel; and deserializing the serialized sentinel yields
the sentinel again. -/
theorem claim_C7_sentinel_roundtrip :
    update_balance_body .inf .inf none =
      { cash := .jstr "Infinity", bank := .jstr "Infinity", reason := none } ∧
    set_balance_body .inf .inf none =
      { cash := .jstr "Infinity", bank := .jstr "Infinity", reason := none } ∧
    (∀ n : Int, serialize_balance (.int n) = .jnum n) ∧
    deserialize_balance (serialize_balance .inf) = .inf ∧
    (∀ (id : Int) (r : Option Int) (c b t : JVal),
      (User_init id { rank := r, cash := .jstr "Infinity", bank := b, total := t }).cash = .inf ∧
      (User_init id { rank := r, cash := c, bank := .jstr "Infinity", total := t }).bank = .inf ∧
      (User_init id { rank := r, cash := c, bank := b, total := .jstr "Infinity" }).total = .inf) := by
  exact ⟨rfl, rfl, fun n => rfl, rfl, fun id r c b t => ⟨rfl, rfl, rfl⟩⟩

/-- C8: on a 404 whose body lacks a message field the code raises
NotFound with the fallback string it actually contains, which is the
misspelled "Unkown Guild", not the documented "Unknown Guild"; when the
body carries a message, that message is used instead. -/
theorem claim_C8_fallback :
    mapStatus 404 none = some (.notFound "Unkown Guild") ∧
    "Unkown Guild" ≠ "Unknown Guild" ∧
    (∀ s : String, mapStatus 404 (some s) = some (.notFound s)) := by
  exact ⟨rfl, by decide, fun s => rfl⟩

/-- C10: User.__init__ guards the rank field with a truthiness test, so
a server response carrying rank 0 produces rank = None, exactly as if
the rank field were absent. -/
theorem claim_C10_rank_zero : ∀ (id : Int) (c b t : JVal),
    (User_init id { rank := some 0, cash := c, bank := b, total := t }).rank = none ∧
    (User_init id { rank := none, cash := c, bank := b, total := t }).rank = none := by
  intro id c b t
  exact ⟨rfl, rfl⟩

/-- C1 counterexample: Application.fetch_guild does not apply the 403
rule nor the generic non-success rule that every other operation
applies: on a 403 (or a 500) response its status checks raise nothing,
while the shared mapping raises Forbidden (respectively the generic
unbapiException). -/
theorem claim_C1_counterexample :
    fetch_guild_map 403 none = none ∧
    mapStatus 403 none = some (.forbidden "This App is not allowed to access this resource") ∧
    fetch_guild_map 500 none = none ∧
    mapStatus 500 none = some (.unbapiException "HTTP request failed.") := by
  exact ⟨rfl, rfl, rfl, rfl⟩

/-- C1 amended: the shared status mapping applied by every operation
other than Application.fetch_guild follows the priority order 401 to
InvalidToken, 403 to Forbidden, 404 to NotFound, any other non-success
status to the generic unbapiException, and success passes through;
Application.fetch_guild however applies only the 401 and 404 rules and
raises nothing on any other status. -/
theorem claim_C1_amended : ∀ (c : Nat) (m : Option String),
    (c = 401 → mapStatus c m = some (.invalidToken (getMsg m "Token is not valid"))) ∧
    (c = 403 → mapStatus c m = some (.forbidden (getMsg m "This App is not allowed to access this resource"))) ∧
    (c = 404 → mapStatus c m = some (.notFound (getMsg m "Unkown Guild"))) ∧
    (c ≠ 401 → c ≠ 403 → c ≠ 404 → respOk c = false →
      mapStatus c m = some (.unbapiException (getMsg m "HTTP request failed."))) ∧
    (c ≠ 401 → c ≠ 403 → c ≠ 404 → respOk c = true → mapStatus c m = none) ∧
    (c = 401 → fetch_guild_map c m = mapStatus c m) ∧
    (c = 404 → fetch_guild_map c m = mapStatus c m) ∧
    (c ≠ 401 → c ≠ 404 → fetch_guild_map c m = none) := by
  intro c m
  refine ⟨?_, ?_, ?_, ?_, ?_, ?_, ?_, ?_⟩ <;> intros <;>
    simp [mapStatus, fetch_guild_map, *]

theorem claim_C1_amended_witness :
    mapStatus 403 none = some (.forbidden "This App is not allowed to access this resource") ∧
    mapStatus 500 none = some (.unbapiException "HTTP request failed.") ∧
    fetch_guild_map 500 none = none := by
  refine ⟨(claim_C1_amended 403 none).2.1 rfl, ?_, ?_⟩
  · exact (claim_C1_amended 500 none).2.2.2.1
      (by decide) (by decide) (by decide) (by decide)
  · exact (claim_C1_amended 500 none).2.2.2.2.2.2.2 (by decide) (by decide)

/-- C3 counterexample: the claim states fetch_item_quantity returns 0
exactly when the response is a 404 with body message "Unknown item";
but a success response whose quantity field is 0 also returns 0, so the
0 return is not exclusive to that 404. -/
theorem claim_C3_counterexample :
    fetch_item_quantity_handle
      { status_code := 200, message := none, quantity := some (.jnum 0) } = .ok 0 ∧
    (200 : Nat) ≠ 404 := by
  exact ⟨rfl, by decide⟩

/-- C3 amended: among 404 responses, fetch_item_quantity returns 0
without failure exactly when the body message equals "Unknown item",
and every other 404 raises NotFound (with the message or the code
fallback); on a success response it returns the integer quantity field
of the body, which in particular also yields 0 when that field is 0. -/
theorem claim_C3_amended : ∀ (r : QResp),
    (r.status_code = 404 →
      ((fetch_item_quantity_handle r = .ok 0 ↔ r.message = some "Unknown item") ∧
       (r.message ≠ some "Unknown item" →
         fetch_item_quantity_handle r =
           .error (.api (.notFound (getMsg r.message "Unkown Guild")))))) ∧
    (respOk r.status_code = true → ∀ q : Int,
      r.quantity = some (.jnum q) → fetch_item_quantity_handle r = .ok q) := by
  intro r
  rcases r with ⟨c, m, qv⟩
  constructor
  · intro hc
    subst hc
    by_cases hm : m = some "Unknown item"
    · subst hm
      refine ⟨⟨fun _ => rfl, fun _ => rfl⟩, fun hne => absurd rfl hne⟩
    · have h1 : fetch_item_quantity_handle ⟨404, m, qv⟩ =
          .error (.api (.notFound (getMsg m "Unkown Guild"))) := by
        simp [fetch_item_quantity_handle, mapStatus, hm]
      refine ⟨⟨fun h0 => ?_, fun h => absurd h hm⟩, fun _ => h1⟩
      rw [h1] at h0
      exact absurd h0 (by simp)
  · intro hok q hq
    have hc : c ≠ 401 ∧ c ≠ 403 ∧ c ≠ 404 := by
      simp [respOk] at hok
      omega
    have hq' : qv = some (.jnum q) := hq
    have hok' : respOk c = true := hok
    simp [fetch_item_quantity_handle, mapStatus, hc.1, hc.2.1, hc.2.2, hok', hq', pyIntJ]

theorem claim_C3_amended_witness :
    fetch_item_quantity_handle
      { status_code := 404, message := some "Unknown item", quantity := none } = .ok 0 ∧
    fetch_item_quantity_handle
      { status_code := 200, message := none, quantity := some (.jnum 5) } = .ok 5 := by
  constructor
  · exact ((claim_C3_amended
      { status_code := 404, message := some "Unknown item", quantity := none }).1
        rfl).1.mpr rfl
  · exact (claim_C3_amended
      { status_code := 200, message := none, quantity := some (.jnum 5) }).2
        (by decide) 5 rfl

/-- C9: get_guild and get_user issue no HTTP request and build the
partial reference deterministically from the normalized identifier, the
parent scope and the token alone; the resulting records carry no
metadata fields (GuildRef holds only the id, the application reference,
the id-derived leaderboard URL and the token; UserRef holds only the
id, the guild reference and the token). -/
theorem claim_C9_partial_refs : ∀ (app : AppRec) (g : GuildRef) (v i : PyVal),
    (normalizeWith "guild_id" v = .ok i →
      get_guild app v =
        (.ok { id := i, application := app, leaderboard_url := leaderboardUrl i,
               token := app.token }, [])) ∧
    (normalizeWith "user_id" v = .ok i →
      get_user g v = (.ok { id := i, guild := g, token := g.token }, [])) := by
  intro app g v i
  constructor
  · intro h
    simp [get_guild, h]
  · intro h
    simp [get_user, h]

theorem claim_C9_witness :
    get_guild { token := "tok", app_id := 1 } (.pint 123) =
      (.ok { id := .pint 123, application := { token := "tok", app_id := 1 },
             leaderboard_url := leaderboardUrl (.pint 123), token := "tok" }, []) ∧
    get_user { id := .pint 5, application := { token := "tok", app_id := 1 },
               leaderboard_url := leaderboardUrl (.pint 5), token := "tok" }
        (.pstr "456") =
      (.ok { id := .pint 456,
             guild := { id := .pint 5, application := { token := "tok", app_id := 1 },
                        leaderboard_url := leaderboardUrl (.pint 5), token := "tok" },
             token := "tok" }, []) := by
  constructor
  · exact (claim_C9_partial_refs { token := "tok", app_id := 1 }
      { id := .pint 5, application := { token := "tok", app_id := 1 },
        leaderboard_url := leaderboardUrl (.pint 5), token := "tok" }
      (.pint 123) (.pint 123)).1 rfl
  · exact (claim_C9_partial_refs { token := "tok", app_id := 1 }
      { id := .pint 5, application := { token := "tok", app_id := 1 },
        leaderboard_url := leaderboardUrl (.pint 5), token := "tok" }
      (.pstr "456") (.pint 456)).2 rfl

set_option maxRecDepth 40000 in
/-- C2: at any loop state actually reachable with a limit set (the
yields counter is nonnegative and below the limit whenever a request is
issued), the limit parameter of the page request equals
min 1000 (limit - yielded), and without a limit it is 1000; against a
server holding enough items, limit 10 gives one request of page size 10
yielding exactly 10 elements, and limit 1500 gives exactly two requests
of page sizes 1000 then 500 yielding 1500 elements. -/
theorem claim_C2_page_sizes :
    (∀ (l y : Int), 0 ≤ y → y < l →
      pageLimitParam (some l) y = min 1000 (l - y)) ∧
    (∀ y : Int, pageLimitParam none y = 1000) ∧
    ((paginate (demoServer 2000) (some 10) 10 1 0).requests = [(10, 1)] ∧
     (paginate (demoServer 2000) (some 10) 10 1 0).yielded.length = 10) ∧
    ((paginate (demoServer 1500) (some 1500) 10 1 0).requests = [(1000, 1), (500, 2)] ∧
     (paginate (demoServer 1500) (some 1500) 10 1 0).yielded.length = 1500) := by
  refine ⟨?_, fun y => rfl, ⟨?_, ?_⟩, ⟨?_, ?_⟩⟩
  · intro l y h0 hlt
    simp only [pageLimitParam]
    split_ifs with h
    · omega
    · omega
  · decide
  · decide
  · decide
  · decide

theorem claim_C2_witness :
    pageLimitParam (some 700) 300 = min 1000 (700 - 300) ∧
    pageLimitParam (some 1500) 1000 = min 1000 (1500 - 1000) := by
  exact ⟨claim_C2_page_sizes.1 700 300 (by decide) (by decide),
         claim_C2_page_sizes.1 1500 1000 (by decide) (by decide)⟩

set_option maxRecDepth 40000 in
/-- C6: three stopping properties of the listing generators. First,
within a page the for-loop yields only until the limit is reached: from
a state with yields y < l the yielded part of a page is exactly the
first (l - y) elements (all of them when the page is shorter). Second,
once the yielded count has reached the limit no further iteration
happens at all: from any state with l <= y the generator yields nothing
and issues no page request. Third, when a page response reports
total_pages below the next page number, the iteration stops after that
single request and never issues the following (empty) page request,
even with the limit not reached; the concrete run against a server
holding 5 items with limit 100 issues exactly the one request. -/
theorem claim_C6_stopping :
    (∀ (l y : Int) (es : List Nat), y < l →
      (takeLimited (some l) y es).1 = es.take (l - y).toNat) ∧
    (∀ (server : Int → Int → PageResp Nat) (l : Int) (fuel : Nat) (page y : Int),
      l ≤ y → paginate server (some l) fuel page y = {}) ∧
    (∀ (server : Int → Int → PageResp Nat) (l y page : Int) (fuel : Nat),
      limitActive (some l) y = true →
      mapStatus (server (pageLimitParam (some l) y) page).status_code
        (server (pageLimitParam (some l) y) page).message = none →
      page + 1 > (server (pageLimitParam (some l) y) page).total_pages →
      (paginate server (some l) (fuel + 1) page y).requests =
        [(pageLimitParam (some l) y, page)]) ∧
    ((paginate (demoServer 5) (some 100) 10 1 0).requests = [(100, 1)] ∧
     (paginate (demoServer 5) (some 100) 10 1 0).yielded.length = 5) := by
  refine ⟨fun l y es h => takeLimited_eq_take l y es h,
          fun server l fuel page y h => paginate_stop_of_limit server l fuel page y h,
          ?_, by decide, by decide⟩
  intro server l y page fuel h1 h2 h3
  simp [paginate, h1, h2, h3]

theorem claim_C6_witness :
    (takeLimited (some 3) 0 [10, 20, 30, 40, 50]).1 =
      [10, 20, 30, 40, 50].take ((3 : Int) - 0).toNat ∧
    paginate (demoServer 5) (some 3) 5 1 3 = {} ∧
    (paginate (demoServer 5) (some 100) 4 1 0).requests =
      [(pageLimitParam (some 100) 0, 1)] := by
  refine ⟨claim_C6_stopping.1 3 0 [10, 20, 30, 40, 50] (by decide),
          claim_C6_stopping.2.1 (demoServer 5) 3 5 1 3 (by decide),
          claim_C6_stopping.2.2.1 (demoServer 5) 100 0 1 3
            (by decide) (by decide) (by decide)⟩
